import Mathlib

/-!
# Verification of the whenr-database derived-index subsystems

Shallow embedding of the full-text search and spatial-index migrations of
`whenr-database` (the `wc_events` / `wc_venues` trigger functions, the
backfill migrations, and the query/sort construction documented in
`POSTGIS_SETUP.md`), together with proofs of the specified properties.

Conventions of the embedding:
* SQL `NULL`-able columns are `Option`; `double precision` coordinates are
  modelled as `ℚ` (exact arithmetic, the migrations only compare and copy).
* `tsvector` values are lists of (lexeme, weight-label) pairs; the `english`
  tokenizer and stemmer of the text-search configuration are an abstract parameter
  `tok : String → List String` since no claim depends on its internals.
* PostGIS primitives (`ST_MakePoint`, `ST_SetSRID`, the `::geography` cast,
  `ST_DWithin`) are modelled from their documented semantics; in particular
  the `::geography` cast rejects coordinates outside
  `[-180 -90, 180 90]`, which is the error path the spec calls
  `InvalidCoordinate`.
* Trigger functions become functions on row values; a raised error becomes
  `Except.error`, which aborts (rejects) the triggering write.
-/

namespace WhenrDB

/-- Weight labels of a `tsvector`, as in PostgreSQL (`setweight` targets). -/
inductive Weight
  | A
  | B
  | C
  | D
deriving DecidableEq, Repr

/-- The default `ts_rank` weight array `{0.1, 0.2, 0.4, 1.0}` for
`{D, C, B, A}` — the numeric importance each label carries in relevance
scoring when no custom weights are passed. -/
def Weight.rankValue : Weight → ℚ
  | Weight.A => 1
  | Weight.B => 2/5
  | Weight.C => 1/5
  | Weight.D => 1/10

/-- A `tsvector`: lexemes paired with their weight label. -/
abbrev Tsvector := List (String × Weight)

/-- Model of `to_tsvector(config, s)`: tokenize/stem `s` and attach the default
weight label `D` (PostgreSQL assigns `D` when no `setweight` is applied).
The tokenizer of the `english` configuration is the parameter `tok`. -/
def to_tsvector (tok : String → List String) (s : String) : Tsvector :=
  (tok s).map (fun t => (t, Weight.D))

/-- Model of `setweight(v, w)`: relabel every lexeme of `v` with `w`. -/
def setweight (v : Tsvector) (w : Weight) : Tsvector :=
  v.map (fun p => (p.1, w))

/-- Model of COALESCE with empty-string default. -/
def coalesce (s : Option String) : String := s.getD ""

/-- Body of the `update_event_search_vector()` trigger function:
`setweight(to_tsvector('english', COALESCE(NEW.title, '')), 'A') ||
 setweight(to_tsvector('english', COALESCE(NEW.description, '')), 'B')`. -/
def update_event_search_vector (tok : String → List String)
    (title description : Option String) : Tsvector :=
  setweight (to_tsvector tok (coalesce title)) Weight.A ++
    setweight (to_tsvector tok (coalesce description)) Weight.B

/-- Body of the `update_venue_search_vector()` trigger function:
`to_tsvector('english', COALESCE(NEW.name, ''))` — note: no `setweight`. -/
def update_venue_search_vector (tok : String → List String)
    (name : Option String) : Tsvector :=
  to_tsvector tok (coalesce name)

/-- A PostGIS point value: spatial reference id plus (x, y) = (lon, lat). -/
structure GeoPoint where
  srid : ℕ
  x : ℚ
  y : ℚ
deriving DecidableEq, Repr

/-- Errors raised by the modelled PostGIS primitives. `invalidCoordinate`
is the `Coordinate values are out of range [-180 -90, 180 90] for
GEOGRAPHY type` error. -/
inductive PgError
  | invalidCoordinate
deriving DecidableEq, Repr

/-- Model of `ST_MakePoint(x, y)`: a point with unset (0) SRID. -/
def st_makePoint (x y : ℚ) : GeoPoint := ⟨0, x, y⟩

/-- Model of `ST_SetSRID(p, srid)`. -/
def st_setSRID (p : GeoPoint) (srid : ℕ) : GeoPoint :=
  { p with srid := srid }

/-- The `::geography` cast. PostGIS raises an error when the coordinates
are outside `[-180 -90, 180 90]`; otherwise the point is kept as-is. -/
def castGeography (p : GeoPoint) : Except PgError GeoPoint :=
  if -180 ≤ p.x ∧ p.x ≤ 180 ∧ -90 ≤ p.y ∧ p.y ≤ 90 then Except.ok p
  else Except.error PgError.invalidCoordinate

/-- A `wc_venues` row (the columns the migrations touch). -/
structure VenueRow where
  name : Option String
  lat : Option ℚ
  lon : Option ℚ
  location : Option GeoPoint
  search_vector : Option Tsvector
deriving DecidableEq, Repr

/-- The `update_venue_location()` trigger function:
if `NEW.lat` and `NEW.lon` are both non-null, set
`NEW.location := ST_SetSRID(ST_MakePoint(NEW.lon, NEW.lat), 4326)::geography`
(the `::numeric` casts are numerically the identity here); otherwise set
`NEW.location := NULL`. A raised error rejects the write. -/
def update_venue_location (r : VenueRow) : Except PgError VenueRow :=
  match r.lat, r.lon with
  | some la, some lo =>
      (castGeography (st_setSRID (st_makePoint lo la) 4326)).map
        (fun g => { r with location := some g })
  | _, _ => Except.ok { r with location := none }

/-- C1. For a write carrying both coordinates, the venue-location
derivation errors with `invalidCoordinate` exactly when the latitude is
outside [-90, 90] or the longitude outside [-180, 180]; on any in-range
pair it succeeds and produces the (lon, lat) point with SRID 4326. -/
theorem spatial_derive_validates_range (la lo : ℚ) (n : Option String)
    (loc : Option GeoPoint) (sv : Option Tsvector) :
    ((la < -90 ∨ 90 < la ∨ lo < -180 ∨ 180 < lo) →
      update_venue_location ⟨n, some la, some lo, loc, sv⟩ =
        Except.error PgError.invalidCoordinate) ∧
    ((-90 ≤ la ∧ la ≤ 90 ∧ -180 ≤ lo ∧ lo ≤ 180) →
      update_venue_location ⟨n, some la, some lo, loc, sv⟩ =
        Except.ok ⟨n, some la, some lo, some ⟨4326, lo, la⟩, sv⟩) := by
  constructor
  · intro h
    simp only [update_venue_location, castGeography, st_setSRID, st_makePoint]
    rw [if_neg]
    · rfl
    · rintro ⟨h1, h2, h3, h4⟩
      rcases h with h | h | h | h <;> linarith
  · rintro ⟨h1, h2, h3, h4⟩
    simp only [update_venue_location, castGeography, st_setSRID, st_makePoint]
    rw [if_pos]
    · rfl
    · exact ⟨h3, h4, h1, h2⟩

/-- C1 witness: at latitude 100 (out of range) derivation errors; at
(lat, lon) = (1, 2) it produces the SRID-4326 point (2, 1). -/
theorem spatial_derive_validates_range_witness :
    update_venue_location ⟨none, some 100, some 0, none, none⟩ =
      Except.error PgError.invalidCoordinate ∧
    update_venue_location ⟨none, some 1, some 2, none, none⟩ =
      Except.ok ⟨none, some 1, some 2, some ⟨4326, 2, 1⟩, none⟩ :=
  ⟨(spatial_derive_validates_range 100 0 none none none).1
      (by norm_num),
   (spatial_derive_validates_range 1 2 none none none).2
      (by norm_num)⟩

/-- A `wc_events` row (the columns the migrations touch). -/
structure EventRow where
  title : Option String
  description : Option String
  start_at : Option ℤ
  venue_id : Option ℕ
  search_vector : Option Tsvector
deriving DecidableEq, Repr

/-- The `trigger_update_event_search_vector` trigger applied to a row:
assigns `NEW.search_vector` from title and description, nothing else. -/
def applyEventSearchTrigger (tok : String → List String) (r : EventRow) :
    EventRow :=
  { r with
      search_vector :=
        some (update_event_search_vector tok r.title r.description) }

/-- The `trigger_update_venue_search_vector` trigger applied to a row:
assigns `NEW.search_vector` from the name, nothing else. -/
def applyVenueSearchTrigger (tok : String → List String) (r : VenueRow) :
    VenueRow :=
  { r with search_vector := some (update_venue_search_vector tok r.name) }

/-- Application-level writes to a `wc_venues` row. Derived columns
(`location`, `search_vector`) are never written directly — they are owned
by the triggers. -/
inductive VenueWrite
  | insert (name : Option String) (lat lon : Option ℚ)
  | setCoords (lat lon : Option ℚ)
  | setName (name : Option String)

/-- The row with every column NULL (fresh row before INSERT values). -/
def emptyVenueRow : VenueRow := ⟨none, none, none, none, none⟩

/-- One write against a venue row, with the triggers as installed:
`trigger_update_venue_location` fires BEFORE INSERT OR UPDATE OF lat, lon
and `trigger_update_venue_search_vector` BEFORE INSERT OR UPDATE OF name
(the `OF` list only restricts UPDATEs, so both fire on INSERT). An
`Except.error` means the write is rejected and the row unchanged. -/
def venueStep (tok : String → List String) (r : VenueRow) :
    VenueWrite → Except PgError VenueRow
  | VenueWrite.insert n la lo =>
      (update_venue_location ⟨n, la, lo, none, none⟩).map
        (applyVenueSearchTrigger tok)
  | VenueWrite.setCoords la lo =>
      update_venue_location { r with lat := la, lon := lo }
  | VenueWrite.setName n =>
      Except.ok (applyVenueSearchTrigger tok { r with name := n })

/-- Venue rows reachable through (accepted) application writes. -/
inductive VenueReachable (tok : String → List String) : VenueRow → Prop
  | init (n : Option String) (la lo : Option ℚ) (r : VenueRow) :
      venueStep tok emptyVenueRow (VenueWrite.insert n la lo) =
        Except.ok r →
      VenueReachable tok r
  | next (r : VenueRow) (w : VenueWrite) (r' : VenueRow) :
      VenueReachable tok r →
      venueStep tok r w = Except.ok r' →
      VenueReachable tok r'

/-- The GeoPoint invariant of a venue row: `location` present iff both
coordinates are, and when present it is exactly the SRID-4326
(lon, lat) point. -/
def LocationInvariant (r : VenueRow) : Prop :=
  (r.location.isSome ↔ (r.lat.isSome ∧ r.lon.isSome)) ∧
  (∀ la lo : ℚ, r.lat = some la → r.lon = some lo →
    r.location = some ⟨4326, lo, la⟩)

lemma update_venue_location_invariant (r r' : VenueRow)
    (h : update_venue_location r = Except.ok r') : LocationInvariant r' := by
  obtain ⟨n, la, lo, loc, sv⟩ := r
  cases la with
  | none =>
      cases lo with
      | none =>
          simp only [update_venue_location, Except.ok.injEq] at h
          subst h
          exact ⟨by simp, fun a b h1 h2 => by cases h1⟩
      | some b =>
          simp only [update_venue_location, Except.ok.injEq] at h
          subst h
          exact ⟨by simp, fun a b h1 h2 => by cases h1⟩
  | some a =>
      cases lo with
      | none =>
          simp only [update_venue_location, Except.ok.injEq] at h
          subst h
          exact ⟨by simp, fun a b h1 h2 => by cases h2⟩
      | some b =>
          simp only [update_venue_location, castGeography, st_setSRID,
            st_makePoint] at h
          by_cases hc : -180 ≤ b ∧ b ≤ 180 ∧ -90 ≤ a ∧ a ≤ 90
          · rw [if_pos hc] at h
            simp only [Except.map, Except.ok.injEq] at h
            subst h
            refine ⟨by simp, ?_⟩
            intro a' b' h1 h2
            cases h1
            cases h2
            rfl
          · rw [if_neg hc] at h
            simp only [Except.map] at h
            cases h

lemma applyVenueSearchTrigger_invariant (tok : String → List String)
    (r : VenueRow) (h : LocationInvariant r) :
    LocationInvariant (applyVenueSearchTrigger tok r) := h

lemma venue_reachable_invariant (tok : String → List String) (r : VenueRow)
    (h : VenueReachable tok r) : LocationInvariant r := by
  induction h with
  | init n la lo r hstep =>
      simp only [venueStep] at hstep
      rcases hmap : update_venue_location ⟨n, la, lo, none, none⟩ with
          e | r0 <;> rw [hmap] at hstep
      · cases hstep
      · simp only [Except.map, Except.ok.injEq] at hstep
        subst hstep
        exact applyVenueSearchTrigger_invariant tok r0
          (update_venue_location_invariant _ _ hmap)
  | next r w r' _ hstep ih =>
      cases w with
      | insert n la lo =>
          simp only [venueStep] at hstep
          rcases hmap : update_venue_location ⟨n, la, lo, none, none⟩ with
              e | r0 <;> rw [hmap] at hstep
          · cases hstep
          · simp only [Except.map, Except.ok.injEq] at hstep
            subst hstep
            exact applyVenueSearchTrigger_invariant tok r0
              (update_venue_location_invariant _ _ hmap)
      | setCoords la lo =>
          simp only [venueStep] at hstep
          exact update_venue_location_invariant _ _ hstep
      | setName n =>
          simp only [venueStep, Except.ok.injEq] at hstep
          subst hstep
          exact applyVenueSearchTrigger_invariant tok _ ih

/-- C2. Every venue row reachable through writes satisfies: the derived
`location` is present iff both `lat` and `lon` are non-null, and when
present it equals the fixed WGS84/SRID-4326 transform of
(longitude, latitude); moreover any accepted coordinate write in which
either coordinate is null leaves the row with `location` cleared. -/
theorem geopoint_presence_invariant (tok : String → List String)
    (r : VenueRow) (h : VenueReachable tok r) :
    ((r.location.isSome ↔ (r.lat.isSome ∧ r.lon.isSome)) ∧
     (∀ la lo : ℚ, r.lat = some la → r.lon = some lo →
        r.location = some ⟨4326, lo, la⟩)) ∧
    (∀ (la lo : Option ℚ) (r' : VenueRow), (la = none ∨ lo = none) →
      venueStep tok r (VenueWrite.setCoords la lo) = Except.ok r' →
      r'.location = none) := by
  refine ⟨venue_reachable_invariant tok r h, ?_⟩
  intro la lo r' hnull hstep
  obtain ⟨n, rla, rlo, rloc, rsv⟩ := r
  simp only [venueStep] at hstep
  rcases la with _ | a <;> rcases lo with _ | b
  · simp only [update_venue_location, Except.ok.injEq] at hstep
    subst hstep
    rfl
  · simp only [update_venue_location, Except.ok.injEq] at hstep
    subst hstep
    rfl
  · simp only [update_venue_location, Except.ok.injEq] at hstep
    subst hstep
    rfl
  · rcases hnull with hn | hn <;> cases hn

/-- C2 witness: inserting the venue ("A", lat 1, lon 2) yields a concrete
reachable row whose location is the SRID-4326 point (2, 1); a follow-up
write that nulls the longitude clears the location. -/
theorem geopoint_presence_invariant_witness :
    ((VenueRow.mk (some "A") (some 1) (some 2) (some ⟨4326, 2, 1⟩)
        (some [("A", Weight.D)])).location = some ⟨4326, 2, 1⟩) ∧
    (∀ r' : VenueRow,
      venueStep (fun s => [s])
          (VenueRow.mk (some "A") (some 1) (some 2) (some ⟨4326, 2, 1⟩)
            (some [("A", Weight.D)]))
          (VenueWrite.setCoords (some 1) none) = Except.ok r' →
      r'.location = none) := by
  have hstep : venueStep (fun s => [s]) emptyVenueRow
      (VenueWrite.insert (some "A") (some 1) (some 2)) =
      Except.ok (VenueRow.mk (some "A") (some 1) (some 2)
        (some ⟨4326, 2, 1⟩) (some [("A", Weight.D)])) := by
    simp only [venueStep, update_venue_location, castGeography, st_setSRID,
      st_makePoint]
    rw [if_pos (by norm_num)]
    rfl
  have hreach : VenueReachable (fun s => [s])
      (VenueRow.mk (some "A") (some 1) (some 2) (some ⟨4326, 2, 1⟩)
        (some [("A", Weight.D)])) :=
    VenueReachable.init (some "A") (some 1) (some 2) _ hstep
  have hmain := geopoint_presence_invariant (fun s => [s]) _ hreach
  exact ⟨hmain.1.2 1 2 rfl rfl,
    fun r' h => hmain.2 (some 1) none r' (Or.inr rfl) h⟩

/-- C8. Text derivation is total and deterministic (it is a function),
null fields are treated as the empty string, and re-running the
maintenance trigger on an unchanged row reproduces the identical
representation (idempotence). -/
theorem text_derive_total_idempotent :
    (∀ (tok : String → List String) (d : Option String),
      update_event_search_vector tok none d =
        update_event_search_vector tok (some "") d) ∧
    (∀ (tok : String → List String) (t : Option String),
      update_event_search_vector tok t none =
        update_event_search_vector tok t (some "")) ∧
    (∀ tok : String → List String,
      update_venue_search_vector tok none =
        update_venue_search_vector tok (some "")) ∧
    (∀ (tok : String → List String) (r : EventRow),
      applyEventSearchTrigger tok (applyEventSearchTrigger tok r) =
        applyEventSearchTrigger tok r) ∧
    (∀ (tok : String → List String) (r : VenueRow),
      applyVenueSearchTrigger tok (applyVenueSearchTrigger tok r) =
        applyVenueSearchTrigger tok r) :=
  ⟨fun _ _ => rfl, fun _ _ => rfl, fun _ => rfl,
   fun _ _ => rfl, fun _ _ => rfl⟩

/-- C9. Frame property of index maintenance: the venue-location trigger
assigns only `location`, and the text-vector triggers assign only
`search_vector`; every source field (title, description, name, lat, lon,
start time, venue reference) is left unchanged. -/
theorem triggers_frame_property :
    (∀ (tok : String → List String) (r : EventRow),
      (applyEventSearchTrigger tok r).title = r.title ∧
      (applyEventSearchTrigger tok r).description = r.description ∧
      (applyEventSearchTrigger tok r).start_at = r.start_at ∧
      (applyEventSearchTrigger tok r).venue_id = r.venue_id) ∧
    (∀ (tok : String → List String) (r : VenueRow),
      (applyVenueSearchTrigger tok r).name = r.name ∧
      (applyVenueSearchTrigger tok r).lat = r.lat ∧
      (applyVenueSearchTrigger tok r).lon = r.lon ∧
      (applyVenueSearchTrigger tok r).location = r.location) ∧
    (∀ r r' : VenueRow, update_venue_location r = Except.ok r' →
      r'.name = r.name ∧ r'.lat = r.lat ∧ r'.lon = r.lon ∧
      r'.search_vector = r.search_vector) := by
  refine ⟨fun _ _ => ⟨rfl, rfl, rfl, rfl⟩,
    fun _ _ => ⟨rfl, rfl, rfl, rfl⟩, ?_⟩
  intro r r' h
  obtain ⟨n, la, lo, loc, sv⟩ := r
  cases la with
  | none =>
      simp only [update_venue_location, Except.ok.injEq] at h
      subst h
      exact ⟨rfl, rfl, rfl, rfl⟩
  | some a =>
      cases lo with
      | none =>
          simp only [update_venue_location, Except.ok.injEq] at h
          subst h
          exact ⟨rfl, rfl, rfl, rfl⟩
      | some b =>
          simp only [update_venue_location, castGeography, st_setSRID,
            st_makePoint] at h
          by_cases hc : -180 ≤ b ∧ b ≤ 180 ∧ -90 ≤ a ∧ a ≤ 90
          · rw [if_pos hc] at h
            simp only [Except.map, Except.ok.injEq] at h
            subst h
            exact ⟨rfl, rfl, rfl, rfl⟩
          · rw [if_neg hc] at h
            simp only [Except.map] at h
            cases h

/-- C9 witness: the frame equalities evaluated on concrete rows, the
third conjunct at the accepted write of the venue at (1, 2). -/
theorem triggers_frame_property_witness :
    ((applyEventSearchTrigger (fun s => [s])
        (EventRow.mk (some "t") (some "d") (some 5) (some 7) none)).title =
      some "t") ∧
    ((applyVenueSearchTrigger (fun s => [s])
        (VenueRow.mk (some "v") (some 1) (some 2) none none)).lat =
      some 1) ∧
    (∀ r' : VenueRow,
      update_venue_location ⟨some "v", some 1, some 2, none, none⟩ =
        Except.ok r' → r'.name = some "v") :=
  ⟨(triggers_frame_property.1 (fun s => [s])
      (EventRow.mk (some "t") (some "d") (some 5) (some 7) none)).1,
   (triggers_frame_property.2.1 (fun s => [s])
      (VenueRow.mk (some "v") (some 1) (some 2) none none)).2.1,
   fun r' h => (triggers_frame_property.2.2
      ⟨some "v", some 1, some 2, none, none⟩ r' h).1⟩

/-- C4, amended. In the derived event representation, title tokens carry
weight label A and description tokens weight label B, with A ranking
strictly above B under the default weighting; venue-name tokens, however,
carry the default label D (no `setweight` is applied), which ranks
strictly below B — so venue-name tokens do not outrank description
tokens. -/
theorem text_weight_tiers :
    (∀ (tok : String → List String) (t d : Option String) (p : String × Weight),
      p ∈ update_event_search_vector tok t d →
        (p.2 = Weight.A ∧ p.1 ∈ tok (coalesce t)) ∨
        (p.2 = Weight.B ∧ p.1 ∈ tok (coalesce d))) ∧
    Weight.rankValue Weight.B < Weight.rankValue Weight.A ∧
    (∀ (tok : String → List String) (n : Option String) (p : String × Weight),
      p ∈ update_venue_search_vector tok n → p.2 = Weight.D) ∧
    Weight.rankValue Weight.D < Weight.rankValue Weight.B := by
  refine ⟨?_, by norm_num [Weight.rankValue], ?_,
    by norm_num [Weight.rankValue]⟩
  · intro tok t d p hp
    simp only [update_event_search_vector, setweight, to_tsvector,
      List.mem_append, List.mem_map] at hp
    rcases hp with ⟨⟨s, hs, rfl⟩⟩ | ⟨⟨s, hs, rfl⟩⟩
    · rcases hs with ⟨s', hs', rfl⟩
      exact Or.inl ⟨rfl, hs'⟩
    · rcases hs with ⟨s', hs', rfl⟩
      exact Or.inr ⟨rfl, hs'⟩
  · intro tok n p hp
    simp only [update_venue_search_vector, to_tsvector, List.mem_map] at hp
    rcases hp with ⟨s, hs, rfl⟩
    rfl

/-- C4 witness: the tiers evaluated at concrete inputs — the title token
of event ("concert", "night") carries A, and the venue token of "rock"
carries D. -/
theorem text_weight_tiers_witness :
    ((("concert", Weight.A) : String × Weight).2 = Weight.A ∧
      "concert" ∈ (fun s => [s]) (coalesce (some "concert"))) ∨
    ((("concert", Weight.A) : String × Weight).2 = Weight.B ∧
      "concert" ∈ (fun s => [s]) (coalesce (some "night"))) := by
  refine text_weight_tiers.1 (fun s => [s]) (some "concert") (some "night")
    ("concert", Weight.A) ?_
  simp [update_event_search_vector, setweight, to_tsvector, coalesce]

/-- C4 counterexample: the claim says venue-name tokens carry weight A
(strictly above description weight B); in the code the venue vector is
built without `setweight`, so the token "rock" carries the default label
D, which is not A and ranks strictly below B. -/
theorem venue_name_weight_not_primary :
    update_venue_search_vector (fun s => [s]) (some "rock") =
      [("rock", Weight.D)] ∧
    Weight.D ≠ Weight.A ∧
    Weight.rankValue Weight.D < Weight.rankValue Weight.B := by
  refine ⟨rfl, by decide, by norm_num [Weight.rankValue]⟩

/-- The sort options accepted by the search endpoint. -/
inductive SortMode
  | date
  | distance
  | relevance
deriving DecidableEq, Repr

/-- The ordering actually emitted by the sorting code (the ORDER BY
clause): ascending start time, ascending PostGIS distance from a center,
or descending start time. -/
inductive OrderSpec
  | startAtAsc
  | distanceAsc (center : GeoPoint)
  | startAtDesc
deriving DecidableEq, Repr

/-- The sorting logic of the search query (POSTGIS_SETUP.md, final
version): `date` → `ORDER BY e.start_at ASC`; `distance` with a
geoLocation → `ORDER BY ST_Distance(v.location, center) ASC`; every other
case → `q ? "ORDER BY e.start_at DESC" : "ORDER BY e.start_at DESC"`. -/
def orderBy : SortMode → Option GeoPoint → Option String → OrderSpec
  | SortMode.date, _, _ => OrderSpec.startAtAsc
  | SortMode.distance, some g, _ => OrderSpec.distanceAsc g
  | _, _, some _ => OrderSpec.startAtDesc
  | _, _, none => OrderSpec.startAtDesc

/-- A fetched result row with the values the ORDER BY clause can key on:
start time, text-match score of the active query, distance from the
active geo center. -/
structure ResultRow where
  id : ℕ
  startAt : ℤ
  relevance : ℚ
  distance : ℚ
deriving DecidableEq, Repr

/-- Insertion into a list sorted by `le`. -/
def insertBy {α : Type} (le : α → α → Bool) (x : α) : List α → List α
  | [] => [x]
  | y :: ys => if le x y then x :: y :: ys else y :: insertBy le x ys

/-- Insertion sort by `le` (the ordering a SQL ORDER BY applies). -/
def sortBy {α : Type} (le : α → α → Bool) (l : List α) : List α :=
  l.foldr (insertBy le) []

/-- The row comparison an `OrderSpec` induces. -/
def OrderSpec.keyLE : OrderSpec → ResultRow → ResultRow → Bool
  | OrderSpec.startAtAsc, a, b => a.startAt ≤ b.startAt
  | OrderSpec.distanceAsc _, a, b => a.distance ≤ b.distance
  | OrderSpec.startAtDesc, a, b => b.startAt ≤ a.startAt

/-- Sorting a result set as the emitted ORDER BY clause dictates. -/
def applyOrder (o : OrderSpec) (rows : List ResultRow) : List ResultRow :=
  sortBy o.keyLE rows

/-- Modelled from the spec: the ordering the spec prescribes for
RELEVANCE with a text query — descending weighted text-match score, ties
broken by start time (descending, matching the pre-ranking behavior). -/
def specRelevanceLE (a b : ResultRow) : Bool :=
  if a.relevance = b.relevance then b.startAt ≤ a.startAt
  else b.relevance ≤ a.relevance

/-- Modelled from the spec: RELEVANCE-sorted results per the spec. -/
def specRelevanceSort (rows : List ResultRow) : List ResultRow :=
  sortBy specRelevanceLE rows

/-- C3 counterexample: the claim says a DISTANCE sort without a geo
filter is rejected at plan time with `InvalidSortRequest` and no ordering
is returned; the code instead emits the `ORDER BY e.start_at DESC`
ordering (the sorting code has no error path at all). -/
theorem distance_sort_without_geo_not_rejected :
    orderBy SortMode.distance none (some "concert") =
      OrderSpec.startAtDesc ∧
    orderBy SortMode.distance none none = OrderSpec.startAtDesc :=
  ⟨rfl, rfl⟩

/-- C3, amended. A DISTANCE sort with no geo filter present is not
rejected: the planner silently falls through to the default branch and
orders by descending start time, signalling no error. -/
theorem distance_sort_without_geo_downgrades (q : Option String) :
    orderBy SortMode.distance none q = OrderSpec.startAtDesc := by
  cases q <;> rfl

/-- C5 counterexample: with a text query present, the claim predicts
ordering by descending text-match score; on rows r1 (score 9, start 10)
and r2 (score 1, start 20) the code orders [r2, r1] (descending start
time) while the relevance order of the spec is [r1, r2]. -/
theorem relevance_sort_ignores_score :
    applyOrder (orderBy SortMode.relevance none (some "rock"))
        [⟨1, 10, 9, 0⟩, ⟨2, 20, 1, 0⟩] =
      [⟨2, 20, 1, 0⟩, ⟨1, 10, 9, 0⟩] ∧
    specRelevanceSort [⟨1, 10, 9, 0⟩, ⟨2, 20, 1, 0⟩] =
      [⟨1, 10, 9, 0⟩, ⟨2, 20, 1, 0⟩] ∧
    ([⟨2, 20, 1, 0⟩, ⟨1, 10, 9, 0⟩] : List ResultRow) ≠
      [⟨1, 10, 9, 0⟩, ⟨2, 20, 1, 0⟩] := by
  refine ⟨?_, ?_, by decide⟩
  · simp only [orderBy, applyOrder, sortBy, OrderSpec.keyLE, List.foldr,
      insertBy]
    norm_num
  · simp only [specRelevanceSort, sortBy, List.foldr, insertBy,
      specRelevanceLE]
    norm_num

/-- C5, amended. The RELEVANCE branch orders by descending start time
whether or not a text query is present (both arms of the conditional emit
`ORDER BY e.start_at DESC`); the weighted text-match score never
influences the order. The no-text-query half of the claim holds; its
with-text-query half does not. -/
theorem relevance_sort_is_start_desc (g : Option GeoPoint)
    (q : Option String) :
    orderBy SortMode.relevance g q = OrderSpec.startAtDesc := by
  cases g <;> cases q <;> rfl

/-- A geo filter: center point and radius in meters (miles are converted
at the boundary with the constant 1609.34). -/
structure GeoFilter where
  center : GeoPoint
  radiusMeters : ℚ
deriving DecidableEq, Repr

/-- Model of `ST_DWithin(a, b, r)` on geography: true iff the geodesic distance
between `a` and `b` is within `r` meters. The geodesic distance function
itself is an opaque parameter `dist`. -/
def st_dwithin (dist : GeoPoint → GeoPoint → ℚ) (a b : GeoPoint)
    (r : ℚ) : Bool :=
  decide (dist a b ≤ r)

/-- The geographic WHERE predicate of the search query:
`v.location IS NOT NULL AND ST_DWithin(v.location, center, radius)`. -/
def geoFilterPasses (dist : GeoPoint → GeoPoint → ℚ)
    (loc : Option GeoPoint) (f : GeoFilter) : Bool :=
  match loc with
  | none => false
  | some p => st_dwithin dist p f.center f.radiusMeters

/-- C7. With a geo filter active, a row without a GeoPoint never passes
the spatial predicate; a row with one passes iff its distance from the
filter center is within the radius; in particular a venue written with
latitude set but longitude null has no GeoPoint and is excluded. -/
theorem geo_filter_semantics (dist : GeoPoint → GeoPoint → ℚ)
    (f : GeoFilter) :
    (geoFilterPasses dist none f = false) ∧
    (∀ p : GeoPoint, geoFilterPasses dist (some p) f = true ↔
      dist p f.center ≤ f.radiusMeters) ∧
    (∀ (tok : String → List String) (r r' : VenueRow) (la : ℚ),
      venueStep tok r (VenueWrite.setCoords (some la) none) =
        Except.ok r' →
      geoFilterPasses dist r'.location f = false) := by
  refine ⟨rfl, fun p => by
    simp [geoFilterPasses, st_dwithin], ?_⟩
  intro tok r r' la hstep
  obtain ⟨n, rla, rlo, rloc, rsv⟩ := r
  simp only [venueStep, update_venue_location, Except.ok.injEq] at hstep
  subst hstep
  rfl

/-- C7 witness: with the trivial distance function and radius 5, a
missing location is excluded, a present location at distance 0 passes,
and the row produced by writing (lat 1, lon NULL) is excluded. -/
theorem geo_filter_semantics_witness :
    (geoFilterPasses (fun _ _ => 0) none ⟨⟨4326, 0, 0⟩, 5⟩ = false) ∧
    (geoFilterPasses (fun _ _ => 0) (some ⟨4326, 3, 4⟩) ⟨⟨4326, 0, 0⟩, 5⟩ =
      true) ∧
    (∀ r' : VenueRow,
      venueStep (fun s => [s]) emptyVenueRow
          (VenueWrite.setCoords (some 1) none) = Except.ok r' →
      geoFilterPasses (fun _ _ => 0) r'.location ⟨⟨4326, 0, 0⟩, 5⟩ =
        false) :=
  ⟨(geo_filter_semantics (fun _ _ => 0) ⟨⟨4326, 0, 0⟩, 5⟩).1,
   ((geo_filter_semantics (fun _ _ => 0) ⟨⟨4326, 0, 0⟩, 5⟩).2.1
      ⟨4326, 3, 4⟩).mpr (by norm_num),
   fun r' h => (geo_filter_semantics (fun _ _ => 0)
      ⟨⟨4326, 0, 0⟩, 5⟩).2.2 (fun s => [s]) emptyVenueRow r' 1 h⟩

/-- The kind of a WHERE-clause predicate. -/
inductive FilterKind
  | date
  | geo
  | text
  | price
deriving DecidableEq, Repr

/-- Position of each filter kind in the documented fixed order. -/
def FilterKind.rank : FilterKind → ℕ
  | FilterKind.date => 0
  | FilterKind.geo => 1
  | FilterKind.text => 2
  | FilterKind.price => 3

/-- One conjunct of the WHERE clause of the search query. -/
inductive Pred
  | startGE (t : ℤ)
  | startLE (t : ℤ)
  | locationNotNull
  | withinRadius (f : GeoFilter)
  | textMatch (q : String)
  | priceMin (p : ℚ)
  | priceMax (p : ℚ)
deriving DecidableEq, Repr

/-- The kind of each predicate. -/
def Pred.kind : Pred → FilterKind
  | Pred.startGE _ => FilterKind.date
  | Pred.startLE _ => FilterKind.date
  | Pred.locationNotNull => FilterKind.geo
  | Pred.withinRadius _ => FilterKind.geo
  | Pred.textMatch _ => FilterKind.text
  | Pred.priceMin _ => FilterKind.price
  | Pred.priceMax _ => FilterKind.price

/-- The optional filters of a search request. -/
structure SearchFilters where
  dateRange : Option (ℤ × ℤ)
  geoFilter : Option GeoFilter
  textQuery : Option String
  priceRange : Option (ℚ × ℚ)

/-- WHERE-clause composition in the documented fixed order (the query
template of the index migration): date range on `e.start_at`, then
`v.location IS NOT NULL AND ST_DWithin(...)`, then the
`search_vector @@ to_tsquery(...)` match, then the price bounds against
the joined offer data last. -/
def buildWhere (f : SearchFilters) : List Pred :=
  (match f.dateRange with
    | some (a, b) => [Pred.startGE a, Pred.startLE b]
    | none => []) ++
  (match f.geoFilter with
    | some g => [Pred.locationNotNull, Pred.withinRadius g]
    | none => []) ++
  (match f.textQuery with
    | some q => [Pred.textMatch q]
    | none => []) ++
  (match f.priceRange with
    | some (a, b) => [Pred.priceMin a, Pred.priceMax b]
    | none => [])

/-- C6. For every search request the WHERE clause lists its conjuncts in
the fixed kind order date ≤ geo ≤ text ≤ price (price last), and a kind
appears exactly when the corresponding filter was requested. -/
theorem where_clause_fixed_order (f : SearchFilters) :
    List.Pairwise (fun a b => FilterKind.rank a ≤ FilterKind.rank b)
      ((buildWhere f).map Pred.kind) ∧
    ((FilterKind.date ∈ (buildWhere f).map Pred.kind) ↔
      f.dateRange.isSome) ∧
    ((FilterKind.geo ∈ (buildWhere f).map Pred.kind) ↔
      f.geoFilter.isSome) ∧
    ((FilterKind.text ∈ (buildWhere f).map Pred.kind) ↔
      f.textQuery.isSome) ∧
    ((FilterKind.price ∈ (buildWhere f).map Pred.kind) ↔
      f.priceRange.isSome) := by
  obtain ⟨dr, g, t, p⟩ := f
  rcases dr with _ | ⟨a, b⟩ <;> rcases g with _ | g <;>
    rcases t with _ | q <;> rcases p with _ | ⟨u, v⟩ <;>
    simp [buildWhere, Pred.kind, FilterKind.rank]

/-- The database state the two index-setup migrations manipulate: the
event and venue rows plus existence flags for the schema objects the
scripts create (columns, extensions, indexes, trigger functions). -/
structure DbState where
  events : List EventRow
  venues : List VenueRow
  eventsSVCol : Bool
  venuesSVCol : Bool
  idxEventsSV : Bool
  idxVenuesSV : Bool
  trgmExt : Bool
  idxEventsTitleTrgm : Bool
  idxEventsDescTrgm : Bool
  idxVenuesNameTrgm : Bool
  eventSVTrg : Bool
  venueSVTrg : Bool
  postgisExt : Bool
  venuesLocCol : Bool
  idxVenuesLoc : Bool
  venueLocTrg : Bool
deriving DecidableEq, Repr

/-- The text-migration backfill on one event row:
`UPDATE ... SET search_vector = ... WHERE search_vector IS NULL`. -/
def backfillEventSV (tok : String → List String) (r : EventRow) :
    EventRow :=
  match r.search_vector with
  | none =>
      { r with
          search_vector :=
            some (update_event_search_vector tok r.title r.description) }
  | some _ => r

/-- The text-migration backfill on one venue row (same NULL guard). -/
def backfillVenueSV (tok : String → List String) (r : VenueRow) :
    VenueRow :=
  match r.search_vector with
  | none =>
      { r with
          search_vector := some (update_venue_search_vector tok r.name) }
  | some _ => r

/-- The whole text-search migration as a state transformer: add the
`search_vector` columns (IF NOT EXISTS), backfill NULL vectors, create
the GIN and trigram indexes (IF NOT EXISTS), enable `pg_trgm`
(IF NOT EXISTS), and (re)install the trigger functions and triggers
(CREATE OR REPLACE / DROP IF EXISTS + CREATE). -/
def migrateTextSearch (tok : String → List String) (s : DbState) :
    DbState :=
  { s with
      eventsSVCol := true
      venuesSVCol := true
      events := s.events.map (backfillEventSV tok)
      venues := s.venues.map (backfillVenueSV tok)
      idxEventsSV := true
      idxVenuesSV := true
      trgmExt := true
      idxEventsTitleTrgm := true
      idxEventsDescTrgm := true
      idxVenuesNameTrgm := true
      eventSVTrg := true
      venueSVTrg := true }

/-- The spatial-migration backfill on one venue row:
`UPDATE ... SET location = ... WHERE lat IS NOT NULL AND lon IS NOT NULL
AND location IS NULL` — the `::geography` cast may raise, aborting the
whole statement. -/
def backfillVenueLoc (r : VenueRow) : Except PgError VenueRow :=
  match r.lat, r.lon, r.location with
  | some la, some lo, none =>
      (castGeography (st_setSRID (st_makePoint lo la) 4326)).map
        (fun g => { r with location := some g })
  | _, _, _ => Except.ok r

/-- Row-by-row statement execution: the first raised error aborts. -/
def mapExcept {α ε : Type} (f : α → Except ε α) : List α →
    Except ε (List α)
  | [] => Except.ok []
  | x :: xs =>
      match f x with
      | Except.error e => Except.error e
      | Except.ok y =>
          match mapExcept f xs with
          | Except.error e => Except.error e
          | Except.ok ys => Except.ok (y :: ys)

/-- The whole PostGIS migration as a (fallible) state transformer:
enable PostGIS (IF NOT EXISTS), add the `location` column
(IF NOT EXISTS), backfill NULL locations from lat/lon, create the GIST
index (IF NOT EXISTS), and drop-and-recreate the trigger. -/
def migratePostgis (s : DbState) : Except PgError DbState :=
  match mapExcept backfillVenueLoc s.venues with
  | Except.error e => Except.error e
  | Except.ok vs =>
      Except.ok
        { s with
            postgisExt := true
            venuesLocCol := true
            venues := vs
            idxVenuesLoc := true
            venueLocTrg := true }

lemma backfillEventSV_idem (tok : String → List String) (r : EventRow) :
    backfillEventSV tok (backfillEventSV tok r) = backfillEventSV tok r := by
  obtain ⟨t, d, sa, v, sv⟩ := r
  cases sv <;> rfl

lemma backfillVenueSV_idem (tok : String → List String) (r : VenueRow) :
    backfillVenueSV tok (backfillVenueSV tok r) = backfillVenueSV tok r := by
  obtain ⟨n, la, lo, loc, sv⟩ := r
  cases sv <;> rfl

lemma map_of_idem {α : Type} (f : α → α) (hf : ∀ a, f (f a) = f a)
    (l : List α) : (l.map f).map f = l.map f := by
  induction l with
  | nil => rfl
  | cons x xs ih => simp [hf, ih]

lemma backfillVenueLoc_stable (r r' : VenueRow)
    (h : backfillVenueLoc r = Except.ok r') :
    backfillVenueLoc r' = Except.ok r' := by
  obtain ⟨n, la, lo, loc, sv⟩ := r
  rcases la with _ | a <;> rcases lo with _ | b <;> rcases loc with _ | g
  · simp only [backfillVenueLoc, Except.ok.injEq] at h
    subst h
    rfl
  · simp only [backfillVenueLoc, Except.ok.injEq] at h
    subst h
    rfl
  · simp only [backfillVenueLoc, Except.ok.injEq] at h
    subst h
    rfl
  · simp only [backfillVenueLoc, Except.ok.injEq] at h
    subst h
    rfl
  · simp only [backfillVenueLoc, Except.ok.injEq] at h
    subst h
    rfl
  · simp only [backfillVenueLoc, Except.ok.injEq] at h
    subst h
    rfl
  · simp only [backfillVenueLoc, castGeography, st_setSRID,
      st_makePoint] at h
    by_cases hc : -180 ≤ b ∧ b ≤ 180 ∧ -90 ≤ a ∧ a ≤ 90
    · rw [if_pos hc] at h
      simp only [Except.map, Except.ok.injEq] at h
      subst h
      rfl
    · rw [if_neg hc] at h
      simp only [Except.map] at h
      cases h
  · simp only [backfillVenueLoc, Except.ok.injEq] at h
    subst h
    rfl

lemma mapExcept_stable {α ε : Type} (f : α → Except ε α)
    (hf : ∀ a b, f a = Except.ok b → f b = Except.ok b) :
    ∀ (l l' : List α), mapExcept f l = Except.ok l' →
      mapExcept f l' = Except.ok l' := by
  intro l
  induction l with
  | nil =>
      intro l' h
      simp only [mapExcept, Except.ok.injEq] at h
      subst h
      rfl
  | cons x xs ih =>
      intro l' h
      simp only [mapExcept] at h
      rcases hx : f x with e | y <;> rw [hx] at h
      · cases h
      · rcases hxs : mapExcept f xs with e | ys <;> rw [hxs] at h
        · cases h
        · simp only [Except.ok.injEq] at h
          subst h
          simp only [mapExcept, hf x y hx, ih ys hxs]

/-- C10. Both index-setup migrations are idempotent state transformers:
running the text-search migration a second time leaves the state
unchanged, and a successful run of the PostGIS migration is a fixed
point of a second run (the IF-NOT-EXISTS guards and the NULL-restricted
backfills make the second pass a no-op). -/
theorem migrations_idempotent :
    (∀ (tok : String → List String) (s : DbState),
      migrateTextSearch tok (migrateTextSearch tok s) =
        migrateTextSearch tok s) ∧
    (∀ s s' : DbState, migratePostgis s = Except.ok s' →
      migratePostgis s' = Except.ok s') := by
  constructor
  · intro tok s
    simp [migrateTextSearch, map_of_idem _ (backfillEventSV_idem tok),
      map_of_idem _ (backfillVenueSV_idem tok)]
  · intro s s' h
    simp only [migratePostgis] at h
    rcases hm : mapExcept backfillVenueLoc s.venues with e | vs <;>
      rw [hm] at h
    · cases h
    · simp only [Except.ok.injEq] at h
      subst h
      simp only [migratePostgis,
        mapExcept_stable backfillVenueLoc backfillVenueLoc_stable
          s.venues vs hm]

/-- C10 witness: a concrete state with one already-indexed venue; the
text migration applied twice equals it applied once, and the state
produced by a successful PostGIS run is a fixed point. -/
theorem migrations_idempotent_witness :
    (migrateTextSearch (fun s => [s])
        (migrateTextSearch (fun s => [s])
          ⟨[⟨some "t", none, some 3, none, none⟩],
           [⟨some "v", some 1, some 2, some ⟨4326, 2, 1⟩, none⟩],
           false, false, false, false, false, false, false, false,
           false, false, false, false, false, false⟩) =
      migrateTextSearch (fun s => [s])
        ⟨[⟨some "t", none, some 3, none, none⟩],
         [⟨some "v", some 1, some 2, some ⟨4326, 2, 1⟩, none⟩],
         false, false, false, false, false, false, false, false,
         false, false, false, false, false, false⟩) ∧
    (migratePostgis
        ⟨[], [⟨some "v", some 1, some 2, some ⟨4326, 2, 1⟩, none⟩],
         false, false, false, false, false, false, false, false,
         false, false, true, true, true, true⟩ =
      Except.ok
        ⟨[], [⟨some "v", some 1, some 2, some ⟨4326, 2, 1⟩, none⟩],
         false, false, false, false, false, false, false, false,
         false, false, true, true, true, true⟩) :=
  ⟨migrations_idempotent.1 (fun s => [s]) _,
   migrations_idempotent.2
     ⟨[], [⟨some "v", some 1, some 2, some ⟨4326, 2, 1⟩, none⟩],
      false, false, false, false, false, false, false, false,
      false, false, true, true, true, true⟩
     ⟨[], [⟨some "v", some 1, some 2, some ⟨4326, 2, 1⟩, none⟩],
      false, false, false, false, false, false, false, false,
      false, false, true, true, true, true⟩ rfl⟩

end WhenrDB
